import Mathlib

/-!
Verification of the spec of `idekerlab/ddot`, file
`examples/1.0.0/Process_the_Gene_Ontology.ipynb`.

The artifact is a Jupyter notebook: a fixed sequence of Python statements
spread over code cells.  We embed it at two levels.

1.  A statement-level model: every code line of the notebook becomes one
    `Stmt` value recording which cell it lives in, what kind of statement it
    is, which library it calls into, whether it reads or writes files,
    which pipeline stage it belongs to, whether it computes or applies a
    gene-identifier mapping, whether it uses a function defined in the
    notebook itself, whether it spawns a thread or a process or an
    asynchronous task, and whether it catches exceptions.  The list
    `notebookStatements` lists the statements in their execution order
    (cells run top to bottom, lines run top to bottom inside a cell).

2.  A data-level model of the `ddot.Ontology` operations the notebook
    calls (`from_table`, `collapse_ontology`, `add_root`, `delete`,
    `rename`, `copy`) and of the two helper functions `f` the notebook
    defines.  The `ddot` library itself is not part of this excerpt of the
    repository, so those operations are modelled from the spec, as marked
    in their doc comments; the helpers `f` are translated from the
    notebook's own code.
-/

namespace DdotNotebook

/-- The libraries the notebook calls into (plus Python builtins and the
`pip` tool run through the cell-8 shell escape). -/
inductive Lib where
  | requests
  | gzip
  | pandas
  | mygene
  | ddot
  | pybuiltin
  | pip
  deriving DecidableEq

/-- Pipeline stages named by the spec: download the GO source files, parse
them into a hierarchy table, construct the merged ontology, collapse
redundant terms, annotate terms with descriptions, translate gene
identifiers, upload to NDEx. -/
inductive Stage where
  | download
  | parseStage
  | construct
  | collapse
  | annotate
  | translate
  | upload
  deriving DecidableEq

/-- Syntactic kind of a notebook statement. -/
inductive StmtKind where
  | importStmt
  | assignConst
  | libCall
  | funcDef
  | shellCommand
  | printStmt
  deriving DecidableEq

/-- One statement of the notebook. -/
structure Stmt where
  cell : Nat
  kind : StmtKind
  lib : Option Lib
  readsFile : Bool
  writesFile : Bool
  stage : Option Stage
  mapsIdentifiers : Bool
  usesNotebookFun : Bool
  spawnsThread : Bool
  spawnsProcess : Bool
  isAsync : Bool
  catchesException : Bool
  deriving DecidableEq

/-- A statement with no library call, no I/O, no stage, no concurrency and
no exception handling: the default every statement below is built from. -/
def plainStmt (c : Nat) (k : StmtKind) : Stmt :=
  ⟨c, k, none, false, false, none, false, false, false, false, false, false⟩

/-- A plain call into a library, possibly belonging to a pipeline stage. -/
def callStmt (c : Nat) (l : Lib) (st : Option Stage) : Stmt :=
  ⟨c, StmtKind.libCall, some l, false, false, st, false, false, false, false, false, false⟩

/-- The statements of `Process_the_Gene_Ontology.ipynb`, in execution
order.  Each entry is annotated with the notebook line it embeds. -/
def notebookStatements : List Stmt := [
  -- cell 1: import requests
  plainStmt 1 StmtKind.importStmt,
  -- cell 1: import gzip
  plainStmt 1 StmtKind.importStmt,
  -- cell 1: import pandas as pd
  plainStmt 1 StmtKind.importStmt,
  -- cell 1: import networkx as nx
  plainStmt 1 StmtKind.importStmt,
  -- cell 1: import sys
  plainStmt 1 StmtKind.importStmt,
  -- cell 1: import ddot
  plainStmt 1 StmtKind.importStmt,
  -- cell 1: from ddot import Ontology
  plainStmt 1 StmtKind.importStmt,
  -- cell 2: ndex_server = 'http://test.ndexbio.org'
  plainStmt 2 StmtKind.assignConst,
  -- cell 2: ndex_user, ndex_pass = '...', '...'
  plainStmt 2 StmtKind.assignConst,
  -- cell 3: r = requests.get('http://purl.obolibrary.org/obo/go/go-basic.obo')
  callStmt 3 Lib.requests (some Stage.download),
  -- cell 3: with open('go-basic.obo', 'wb') as f: f.write(r.content)
  { callStmt 3 Lib.pybuiltin (some Stage.download) with writesFile := true },
  -- cell 3: ddot.parse_obo('go-basic.obo', 'go.tab', ...)
  { callStmt 3 Lib.ddot (some Stage.parseStage) with readsFile := true, writesFile := true },
  -- cell 3: r = requests.get('http://geneontology.org/gene-associations/goa_human.gaf.gz')
  callStmt 3 Lib.requests (some Stage.download),
  -- cell 3: with open('goa_human.gaf.gz', 'wb') as f: f.write(r.content)
  { callStmt 3 Lib.pybuiltin (some Stage.download) with writesFile := true },
  -- cell 4: hierarchy = pd.read_table('go.tab', ...)
  { callStmt 4 Lib.pandas (some Stage.parseStage) with readsFile := true },
  -- cell 4: with gzip.open('goa_human.gaf.gz', 'rb') as f: mapping = ddot.parse_gaf(f)
  { callStmt 4 Lib.ddot (some Stage.parseStage) with readsFile := true },
  -- cell 5: go_human = Ontology.from_table(..., add_root_name='GO:00SUPER', ...)
  callStmt 5 Lib.ddot (some Stage.construct),
  -- cell 5: go_human.clear_node_attr()
  callStmt 5 Lib.ddot none,
  -- cell 5: go_human.clear_edge_attr()
  callStmt 5 Lib.ddot none,
  -- cell 5: go_human  (displays the object's repr)
  plainStmt 5 StmtKind.printStmt,
  -- cell 6: go_human = go_human.collapse_ontology(method='mhkramer'); the
  -- library runs the external collapseRedundantNodes binary in a
  -- subprocess, as the recorded cell output shows
  { callStmt 6 Lib.ddot (some Stage.collapse) with spawnsProcess := true },
  -- cell 6: if 'GO:00SUPER' not in go_human.terms: go_human.add_root('GO:00SUPER', inplace=True)
  callStmt 6 Lib.ddot (some Stage.collapse),
  -- cell 6: print go_human
  plainStmt 6 StmtKind.printStmt,
  -- cell 7: go_descriptions = pd.read_table('goID_2_name.tab', ...)
  { callStmt 7 Lib.pandas (some Stage.annotate) with readsFile := true },
  -- cell 7: go_human.update_node_attr(go_descriptions)
  callStmt 7 Lib.ddot (some Stage.annotate),
  -- cell 7: go_branches = pd.read_table('goID_2_namespace.tab', ...)
  { callStmt 7 Lib.pandas (some Stage.annotate) with readsFile := true },
  -- cell 7: go_human.update_node_attr(go_branches)
  callStmt 7 Lib.ddot (some Stage.annotate),
  -- cell 8: ! pip install mygene (shell escape: runs pip in a subprocess)
  { plainStmt 8 StmtKind.shellCommand with lib := some Lib.pip, spawnsProcess := true },
  -- cell 9: import mygene
  plainStmt 9 StmtKind.importStmt,
  -- cell 9: mg = mygene.MyGeneInfo()
  callStmt 9 Lib.mygene none,
  -- cell 10: name = 'Human-specific Gene Ontology'
  plainStmt 10 StmtKind.assignConst,
  -- cell 11: go_human_uniprot = go_human.copy()
  callStmt 11 Lib.ddot none,
  -- cell 11: go_human_uniprot.to_table('collapsed_go.uniprot', clixo_format=True)
  { callStmt 11 Lib.ddot none with writesFile := true },
  -- cell 11: go_human_uniprot.to_pickle('collapsed_go.uniprot.pkl')
  { callStmt 11 Lib.ddot none with writesFile := true },
  -- cell 11: url, G = go_human_uniprot.to_ndex(...)
  callStmt 11 Lib.ddot (some Stage.upload),
  -- cell 11: print(url)
  plainStmt 11 StmtKind.printStmt,
  -- cell 12: uniprot_2_symbol_df = mg.querymany(go_human.genes, scopes='uniprot', fields='symbol', ...)
  { callStmt 12 Lib.mygene (some Stage.translate) with mapsIdentifiers := true },
  -- cell 12: def f(x): x = x['symbol']; if len(x)==1: return x[0] else: return x.tolist()
  plainStmt 12 StmtKind.funcDef,
  -- cell 12: uniprot_2_symbol = uniprot_2_symbol_df.dropna(subset=['symbol']).groupby('query').apply(f)
  { callStmt 12 Lib.pandas (some Stage.translate) with mapsIdentifiers := true, usesNotebookFun := true },
  -- cell 13: go_human_symbol = go_human.delete(to_delete=set(go_human.genes) - set(uniprot_2_symbol.keys()))
  callStmt 13 Lib.ddot (some Stage.translate),
  -- cell 13: go_human_symbol = go_human_symbol.rename(genes=uniprot_2_symbol.to_dict())
  { callStmt 13 Lib.ddot (some Stage.translate) with mapsIdentifiers := true },
  -- cell 13: print(go_human_symbol)
  plainStmt 13 StmtKind.printStmt,
  -- cell 13: go_human_symbol.to_table('collapsed_go.symbol', clixo_format=True)
  { callStmt 13 Lib.ddot none with writesFile := true },
  -- cell 13: go_human_symbol.to_pickle('collapsed_go.symbol.pkl')
  { callStmt 13 Lib.ddot none with writesFile := true },
  -- cell 13: url, G = go_human_symbol.to_ndex(...)
  callStmt 13 Lib.ddot (some Stage.upload),
  -- cell 13: print(url)
  plainStmt 13 StmtKind.printStmt,
  -- cell 14: uniprot_2_entrezgene_df = mg.querymany(go_human.genes, ..., fields='entrezgene', ...)
  { callStmt 14 Lib.mygene (some Stage.translate) with mapsIdentifiers := true },
  -- cell 14: def f(x): x = x['entrezgene'].astype(int).astype(str); ...
  plainStmt 14 StmtKind.funcDef,
  -- cell 14: uniprot_2_entrezgene = uniprot_2_entrezgene_df.dropna(...).groupby('query').apply(f)
  { callStmt 14 Lib.pandas (some Stage.translate) with mapsIdentifiers := true, usesNotebookFun := true },
  -- cell 15: go_human_entrez = go_human.delete(to_delete=set(go_human.genes) - set(uniprot_2_entrezgene.keys()))
  callStmt 15 Lib.ddot (some Stage.translate),
  -- cell 15: go_human_entrez = go_human_entrez.rename(genes=uniprot_2_entrezgene.to_dict())
  { callStmt 15 Lib.ddot (some Stage.translate) with mapsIdentifiers := true },
  -- cell 15: print go_human_entrez
  plainStmt 15 StmtKind.printStmt,
  -- cell 15: go_human_entrez.to_table('collapsed_go.entrez', clixo_format=True)
  { callStmt 15 Lib.ddot none with writesFile := true },
  -- cell 15: go_human_entrez.to_pickle('collapsed_go.entrez.pkl')
  { callStmt 15 Lib.ddot none with writesFile := true },
  -- cell 15: url, G = go_human_entrez.to_ndex(...)
  callStmt 15 Lib.ddot (some Stage.upload),
  -- cell 15: print(url)
  plainStmt 15 StmtKind.printStmt]

/-- Does statement `s` belong to stage `st`? -/
def isStage (st : Stage) (s : Stmt) : Bool := s.stage == some st

/-- Is some statement of `l` in stage `st`? -/
def stagePresent (l : List Stmt) (st : Stage) : Bool := l.any (isStage st)

/-- The rank of a stage in the order the spec lists the pipeline stages:
download, parse, merge, collapse, translate, upload.  The annotate stage is
not part of the spec's list, so it gets no rank. -/
def listedRank (st : Stage) : Option Nat :=
  match st with
  | Stage.download => some 0
  | Stage.parseStage => some 1
  | Stage.construct => some 2
  | Stage.collapse => some 3
  | Stage.annotate => none
  | Stage.translate => some 4
  | Stage.upload => some 5

/-- The rank of a statement's stage, when the stage is one the spec lists. -/
def stageRankAt (s : Stmt) : Option Nat := s.stage.bind listedRank

/-- Every ranked statement pair of `l` appears in nondecreasing rank order:
the Boolean form of "the notebook executes the pipeline stages in the order
the spec lists them". -/
def pairsInOrder (l : List Stmt) : Bool :=
  l.enum.all (fun a => l.enum.all (fun b =>
    !(decide (a.fst < b.fst)) ||
      match stageRankAt a.snd, stageRankAt b.snd with
      | some ra, some rb => decide (ra ≤ rb)
      | _, _ => true))

/-- Every NDEx upload statement of `l` is preceded by some
identifier-translation statement. -/
def uploadsAfterTranslate (l : List Stmt) : Bool :=
  l.enum.all (fun a =>
    !(isStage Stage.upload a.snd) ||
      l.enum.any (fun b => isStage Stage.translate b.snd && decide (b.fst < a.fst)))

/-- Every `p`-statement of `l` comes strictly before every `q`-statement. -/
def allBefore (l : List Stmt) (p q : Stmt → Bool) : Bool :=
  l.enum.all (fun a => !(p a.snd) ||
    l.enum.all (fun b => !(q b.snd) || decide (a.fst < b.fst)))

/-- Every `p`-statement other than the first `p`-statement is preceded by
some `q`-statement. -/
def laterOnesAfterSome (l : List Stmt) (p q : Stmt → Bool) : Bool :=
  l.enum.all (fun a => !(p a.snd) || decide (a.fst = l.findIdx p) ||
    l.enum.any (fun b => q b.snd && decide (b.fst < a.fst)))

/-- Some `p`-statement of `l` comes before some `q`-statement. -/
def someBefore (l : List Stmt) (p q : Stmt → Bool) : Bool :=
  l.enum.any (fun a => p a.snd &&
    l.enum.any (fun b => q b.snd && decide (a.fst < b.fst)))

/-- Observable effects of a statement run: it was executed, it wrote a
file, it uploaded a network to NDEx.  Effects are tagged with the cell the
statement lives in. -/
inductive Effect where
  | executed (cell : Nat)
  | wrote (cell : Nat)
  | uploaded (cell : Nat)
  deriving DecidableEq

/-- The effects a single statement produces when it runs to completion. -/
def effectsOf (s : Stmt) : List Effect :=
  Effect.executed s.cell ::
    ((if s.writesFile then [Effect.wrote s.cell] else []) ++
      (if isStage Stage.upload s then [Effect.uploaded s.cell] else []))

/-- Run a list of statements in order.  `fails` says which statements
raise an exception when reached.  A raising statement produces no effects;
if it does not catch its own exception the run aborts there, otherwise the
run continues.  The result is the list of effects produced and whether the
run finished. -/
def runFrom : List Stmt → (Stmt → Bool) → List Effect × Bool
  | [], _ => ([], true)
  | s :: rest, fails =>
    if fails s then
      if s.catchesException then runFrom rest fails
      else ([], false)
    else
      let p := runFrom rest fails
      (effectsOf s ++ p.fst, p.snd)

/-- The cells of the statements actually executed in a failure-free run,
in the order they executed. -/
def execTrace (l : List Stmt) : List Nat :=
  (runFrom l (fun _ => false)).fst.filterMap (fun e =>
    match e with
    | Effect.executed c => some c
    | _ => none)

/-!  Data-level model of the `ddot.Ontology` operations the notebook
calls.  The `ddot` library is not part of this excerpt of the repository
(the spec declares it an opaque dependency), so these operations are
modelled from the spec's description of what the notebook's calls do. -/

/-- An ontology as the notebook manipulates it: genes, terms, gene-term
relations (gene, term), term-term relations (child term, parent term), and
per-node attributes (node, attribute name, attribute value). -/
structure Ontology where
  genes : List String
  terms : List String
  gene_term : List (String × String)
  term_term : List (String × String)
  node_attr : List (String × String × String)
  deriving DecidableEq

/-- The nodes of a (parent, child) hierarchy table. -/
def tableNodes (edges : List (String × String)) : List String :=
  (edges.map Prod.fst ++ edges.map Prod.snd).dedup

/-- The roots of a (parent, child) hierarchy table: nodes that are no
row's child. -/
def tableRoots (edges : List (String × String)) : List String :=
  (tableNodes edges).filter (fun t => !(edges.any (fun e => decide (e.snd = t))))

/-- Modelled from the spec: the ddot library's `Ontology.from_table` is
absent from this excerpt.  It builds an ontology from a (parent, child)
hierarchy table and a (gene, term) annotation table and, when the table
has several independent root branches, merges them under one synthetic
root named `rootName` (spec: merge three independent ontology branches
under one synthetic root). -/
def Ontology.from_table (edges : List (String × String))
    (mapping : List (String × String)) (rootName : String) : Ontology :=
  let ts := tableNodes edges
  let rs := tableRoots edges
  if 2 ≤ rs.length then
    ⟨(mapping.map Prod.fst).dedup, rootName :: ts, mapping,
      edges.map (fun e => (e.snd, e.fst)) ++ rs.map (fun r => (r, rootName)), []⟩
  else
    ⟨(mapping.map Prod.fst).dedup, ts, mapping,
      edges.map (fun e => (e.snd, e.fst)), []⟩

/-- The genes annotated directly to a term. -/
def genesOfTerm (o : Ontology) (t : String) : List String :=
  (o.gene_term.filter (fun p => decide (p.snd = t))).map Prod.fst

/-- The child terms of a term. -/
def childrenOf (o : Ontology) (t : String) : List String :=
  (o.term_term.filter (fun p => decide (p.snd = t))).map Prod.fst

/-- Do two gene lists describe the same gene set? -/
def sameGeneSet (a b : List String) : Bool :=
  a.all (fun x => decide (x ∈ b)) && b.all (fun x => decide (x ∈ a))

/-- A term is redundant (non-informative) when it has no annotated genes
or when some child term carries exactly the same gene set. -/
def redundantTerm (o : Ontology) (t : String) : Bool :=
  (genesOfTerm o t).isEmpty ||
    (childrenOf o t).any (fun c => sameGeneSet (genesOfTerm o c) (genesOfTerm o t))

/-- Modelled from the spec: the ddot library's `collapse_ontology` is
absent from this excerpt.  It collapses redundant (non-informative) terms:
the redundant terms are removed, the relations touching them are dropped,
and the genes are kept. -/
def Ontology.collapse_ontology (o : Ontology) : Ontology :=
  let keep := o.terms.filter (fun t => !(redundantTerm o t))
  ⟨o.genes, keep,
    o.gene_term.filter (fun p => decide (p.snd ∈ keep)),
    o.term_term.filter (fun p => decide (p.fst ∈ keep) && decide (p.snd ∈ keep)),
    o.node_attr⟩

/-- The roots of an ontology: terms with no parent. -/
def ontologyRoots (o : Ontology) : List String :=
  o.terms.filter (fun t => !(o.term_term.any (fun e => decide (e.fst = t))))

/-- Modelled from the spec: the ddot library's `add_root` is absent from
this excerpt.  It adds a new term `r` as root, making every existing root
a child of `r`. -/
def Ontology.add_root (o : Ontology) (r : String) : Ontology :=
  ⟨o.genes, r :: o.terms, o.gene_term,
    o.term_term ++ (ontologyRoots o).map (fun t => (t, r)), o.node_attr⟩

/-- Cell 6 of the notebook: collapse, then re-add the synthetic root if
the collapse removed it
(`if 'GO:00SUPER' not in go_human.terms: go_human.add_root('GO:00SUPER', inplace=True)`). -/
def collapseStep (o : Ontology) : Ontology :=
  let c := o.collapse_ontology
  if "GO:00SUPER" ∈ c.terms then c else c.add_root "GO:00SUPER"

/-- Modelled from the spec: the ddot library's `delete` is absent from
this excerpt.  It removes the named nodes from the ontology together with
the relations and node attributes touching them. -/
def Ontology.delete (o : Ontology) (toDel : List String) : Ontology :=
  ⟨o.genes.filter (fun g => !(decide (g ∈ toDel))),
    o.terms.filter (fun t => !(decide (t ∈ toDel))),
    o.gene_term.filter (fun p => !(decide (p.fst ∈ toDel)) && !(decide (p.snd ∈ toDel))),
    o.term_term.filter (fun p => !(decide (p.fst ∈ toDel)) && !(decide (p.snd ∈ toDel))),
    o.node_attr.filter (fun a => !(decide (a.fst ∈ toDel)))⟩

/-- The new name of a gene under a mapping given as an association list:
the mapped value if the gene is a key, otherwise the gene itself. -/
def renameGene (m : List (String × String)) (g : String) : String :=
  match m.lookup g with
  | some v => v
  | none => g

/-- Modelled from the spec: the ddot library's `rename` is absent from
this excerpt.  Called with a gene mapping it renames the genes and the
gene side of the gene-term relations, leaving terms, term-term relations
and node attributes untouched. -/
def Ontology.rename (o : Ontology) (m : List (String × String)) : Ontology :=
  ⟨o.genes.map (renameGene m), o.terms,
    o.gene_term.map (fun p => (renameGene m p.fst, p.snd)),
    o.term_term, o.node_attr⟩

/-- Modelled from the spec: `copy` returns an equal, independent ontology. -/
def Ontology.copy (o : Ontology) : Ontology := o

/-- The keys of a mapping given as an association list. -/
def mapKeys (m : List (String × String)) : List String := m.map Prod.fst

/-- Python's `set(a) - set(b)` on gene lists, as the notebook computes the
genes to delete. -/
def setDiff (a b : List String) : List String :=
  a.filter (fun x => !(decide (x ∈ b)))

/-- Cells 13 and 15 of the notebook: delete the genes that are not keys of
the identifier mapping, then rename the remaining genes through it
(`go_human.delete(to_delete=set(go_human.genes) - set(m.keys())).rename(genes=m.to_dict())`). -/
def translateVariant (o : Ontology) (m : List (String × String)) : Ontology :=
  (o.delete (setDiff o.genes (mapKeys m))).rename m

/-!  The two helper functions `f` the notebook defines, translated from
the notebook's own code (cells 12 and 14). -/

/-- Cell 12: `def f(x): x = x['symbol']; if len(x)==1: return x[0]
else: return x.tolist()` — the group's symbol column, one value or a
list of values. -/
def fSymbol (x : List String) : Sum String (List String) :=
  match x with
  | [v] => Sum.inl v
  | ys => Sum.inr ys

/-- Numpy's `.astype(int)` on a float value: truncation toward zero.  The
entrezgene column holds integer-valued floats; we model the column values
as rationals. -/
def astype_int (q : ℚ) : Int := q.num / (q.den : Int)

/-- Decimal string of a natural number, as Python's `str` writes it. -/
def natDecimalString (n : Nat) : String := String.mk (Nat.toDigits 10 n)

/-- Decimal string of an integer, as Python's `str` writes it: an optional
leading minus sign followed by decimal digits, never a fractional part. -/
def intDecimalString (n : Int) : String :=
  if n < 0 then String.mk ('-' :: Nat.toDigits 10 n.natAbs)
  else natDecimalString n.natAbs

/-- One entrezgene value after cell 14's `.astype(int).astype(str)`. -/
def entrez_value (q : ℚ) : String := intDecimalString (astype_int q)

/-- Cell 14: `def f(x): x = x['entrezgene'].astype(int).astype(str);
if len(x)==1: return x[0] else: return x.tolist()`. -/
def fEntrez (x : List ℚ) : Sum String (List String) :=
  match x.map entrez_value with
  | [v] => Sum.inl v
  | ys => Sum.inr ys

/-- The identifier values a helper result carries. -/
def sumVals : Sum String (List String) → List String
  | Sum.inl v => [v]
  | Sum.inr vs => vs

/-- Is a list of cell numbers nondecreasing? -/
def nondecreasing : List Nat → Bool
  | [] => true
  | [_] => true
  | a :: b :: t => decide (a ≤ b) && nondecreasing (b :: t)

/-!  Formalizations of the claims' own wording, used to state the
counterexamples for the claims the code refutes. -/

/-- C1 as stated: the six listed stages all occur, every pair of staged
statements appears in the spec's listed order, and every NDEx upload is
preceded by an identifier-translation statement. -/
@[reducible] def specListedOrder (l : List Stmt) : Prop :=
  (stagePresent l Stage.download && stagePresent l Stage.parseStage &&
    stagePresent l Stage.construct && stagePresent l Stage.collapse &&
    stagePresent l Stage.translate && stagePresent l Stage.upload &&
    pairsInOrder l && uploadsAfterTranslate l) = true

/-- C2 as stated: every statement that maps gene identifiers calls the
ddot library and uses no function defined in the notebook. -/
@[reducible] def mappingOnlyViaDdot (l : List Stmt) : Prop :=
  (l.all fun s => !s.mapsIdentifiers ||
    (s.lib == some Lib.ddot && !s.usesNotebookFun)) = true

/-- C3 as stated: every statement is a call into an imported library (file
reads and writes happen through such calls) or a print, and none defines a
function. -/
@[reducible] def onlyLibraryCallsAndPrints (l : List Stmt) : Prop :=
  (l.all fun s => (s.kind == StmtKind.libCall || s.kind == StmtKind.printStmt)
    && !(s.kind == StmtKind.funcDef)) = true

/-- C7 as stated: no statement spawns a thread, a process or an
asynchronous task, the failure-free run executes every statement exactly
once in list order, and the cells run top to bottom. -/
@[reducible] def linearNoConcurrency (l : List Stmt) : Prop :=
  ((l.all fun s => !s.spawnsThread && !s.spawnsProcess && !s.isAsync) = true)
  ∧ execTrace l = l.map Stmt.cell
  ∧ nondecreasing (l.map Stmt.cell) = true

/-- C5 as stated, at one input: the collapse step (root re-added if
missing) only removes terms and keeps the genes. -/
@[reducible] def collapseOnlyRemoves (o : Ontology) : Prop :=
  (∀ t ∈ (collapseStep o).terms, t ∈ o.terms) ∧ (collapseStep o).genes = o.genes

/-- A one-term ontology that does not contain the synthetic root
GO:00SUPER. -/
def ontNoRoot : Ontology := ⟨["g1"], ["T1"], [("g1", "T1")], [], []⟩

/-- An ontology that contains the synthetic root GO:00SUPER. -/
def ontWithRoot : Ontology :=
  ⟨["g1"], ["GO:00SUPER", "T1"], [("g1", "T1")], [("T1", "GO:00SUPER")], []⟩

/-- A failure behaviour in which exactly the download statements raise. -/
def failFirstDownload : Stmt → Bool := fun s => isStage Stage.download s

/-- A three-branch hierarchy table: three roots, each with one child. -/
def threeBranchEdges : List (String × String) :=
  [("GO:0008150", "GO:0000001"), ("GO:0003674", "GO:0000002"),
   ("GO:0005575", "GO:0000003")]

/-- A two-gene ontology for exercising `delete` and `rename`. -/
def ontForDelete : Ontology := ⟨["A", "B"], ["T"], [("A", "T"), ("B", "T")], [], []⟩

/-- A mapping whose keys cover only the gene A. -/
def symbolMap : List (String × String) := [("A", "a1")]

/-- An ontology with node attributes, for the frame property of the three
uploaded variants. -/
def ontAttr : Ontology :=
  ⟨["A", "B"], ["GO:00SUPER", "T1"], [("A", "T1"), ("B", "T1")],
   [("T1", "GO:00SUPER")],
   [("T1", "Term_Description", "desc"), ("T1", "Branch", "biological_process")]⟩

/-- A mapping to symbols covering only the gene A. -/
def mapToSymbol : List (String × String) := [("A", "a1")]

/-- A mapping to Entrez identifiers covering both genes. -/
def mapToEntrez : List (String × String) := [("A", "1"), ("B", "2")]

/-- In a list of statements none of which catches exceptions, a run whose
first failing statement is at position `i` aborts there, keeping exactly
the effects of the statements before position `i`. -/
theorem runFrom_abort (l : List Stmt) (fails : Stmt → Bool) (i : Nat)
    (hi : i < l.length)
    (hnc : ∀ s ∈ l, s.catchesException = false)
    (hbefore : ∀ j, (hj : j < l.length) → j < i → fails (l.get ⟨j, hj⟩) = false)
    (hfail : fails (l.get ⟨i, hi⟩) = true) :
    runFrom l fails = (((l.take i).map effectsOf).flatten, false) := by
  induction l generalizing i with
  | nil => exact absurd hi (Nat.not_lt_zero i)
  | cons s rest ih =>
    cases i with
    | zero =>
      simp only [List.get] at hfail
      simp [runFrom, hfail, hnc s (List.mem_cons_self s rest)]
    | succ i =>
      have hs : fails s = false := hbefore 0 (Nat.succ_pos _) (Nat.succ_pos _)
      have hrest : runFrom rest fails = (((rest.take i).map effectsOf).flatten, false) := by
        refine ih i (Nat.lt_of_succ_lt_succ hi)
          (fun t ht => hnc t (List.mem_cons_of_mem s ht)) ?_ hfail
        intro j hj hji
        exact hbefore (j + 1) (Nat.succ_lt_succ hj) (Nat.succ_lt_succ hji)
      simp [runFrom, hs, hrest, List.take_succ_cons]

/-- C1 (counterexample): the notebook does not execute the pipeline stages
in the order the spec lists them — the UniProt upload to NDEx (cell 11)
happens before any identifier-translation statement (the first `querymany`
call is in cell 12), and the OBO file is parsed (cell 3) before the GAF
annotation file is downloaded. -/
theorem C1_pipeline_order_counterexample : ¬ specListedOrder notebookStatements := by
  decide

/-- C1 (amended): the notebook executes all six listed stages; downloading
and parsing are interleaved (some parsing precedes a download) but both
fully precede ontology construction; construction precedes collapsing;
collapsing precedes all identifier translation and all NDEx uploads; the
first NDEx upload (the UniProt variant) precedes every
identifier-translation statement, while every later NDEx upload (the
Symbol and Entrez variants) is preceded by an identifier-translation
statement. -/
theorem C1_pipeline_order_amended :
    stagePresent notebookStatements Stage.download = true
  ∧ stagePresent notebookStatements Stage.parseStage = true
  ∧ stagePresent notebookStatements Stage.construct = true
  ∧ stagePresent notebookStatements Stage.collapse = true
  ∧ stagePresent notebookStatements Stage.translate = true
  ∧ stagePresent notebookStatements Stage.upload = true
  ∧ someBefore notebookStatements (isStage Stage.parseStage) (isStage Stage.download) = true
  ∧ allBefore notebookStatements
      (fun s => isStage Stage.download s || isStage Stage.parseStage s)
      (isStage Stage.construct) = true
  ∧ allBefore notebookStatements (isStage Stage.construct) (isStage Stage.collapse) = true
  ∧ allBefore notebookStatements (isStage Stage.collapse)
      (fun s => isStage Stage.translate s || isStage Stage.upload s) = true
  ∧ notebookStatements.findIdx (isStage Stage.upload)
      < notebookStatements.findIdx (isStage Stage.translate)
  ∧ laterOnesAfterSome notebookStatements (isStage Stage.upload) (isStage Stage.translate)
      = true := by
  decide

/-- C2 (counterexample): not all identifier mapping is delegated to the
ddot library — the `querymany` statements of cells 12 and 14 map gene
identifiers through the mygene library, and the `groupby(...).apply(f)`
statements post-process the mapping with pandas and the notebook-defined
function `f`. -/
theorem C2_mapping_lib_counterexample : ¬ mappingOnlyViaDdot notebookStatements := by
  decide

/-- C2 (amended): the gene-identifier mapping is computed by the external
mygene library (`querymany`) and post-processed by pandas together with
the notebook-defined helper `f`; the ddot library only applies the
finished mapping (`rename`); no other library takes part in identifier
mapping. -/
theorem C2_mapping_lib_amended :
    ((notebookStatements.any fun s => s.mapsIdentifiers && s.lib == some Lib.mygene) = true)
  ∧ ((notebookStatements.any fun s =>
       s.mapsIdentifiers && s.usesNotebookFun && s.lib == some Lib.pandas) = true)
  ∧ ((notebookStatements.all fun s => !s.mapsIdentifiers ||
       (s.lib == some Lib.mygene || s.lib == some Lib.pandas || s.lib == some Lib.ddot))
      = true) := by
  decide

/-- C3 (counterexample): not every statement of the notebook is a library
call, a file read or write, or a print — cells 12 and 14 each define a
function `f` of the notebook's own, and the import and constant-assignment
statements are none of the listed kinds either. -/
theorem C3_no_own_code_counterexample : ¬ onlyLibraryCallsAndPrints notebookStatements := by
  decide

/-- C3 (amended): apart from the two statements (cells 12 and 14) that
define the helper function `f` — whose result depends on a computation the
notebook implements itself, a length test choosing between a single value
and a list — every statement is a library call, a print, an import, a
constant assignment, or the one pip shell escape; `fSymbol`, the model of
`f`, indeed returns different shapes for groups of different length. -/
theorem C3_no_own_code_amended :
    ((notebookStatements.filter fun s => s.kind == StmtKind.funcDef).length = 2)
  ∧ ((notebookStatements.all fun s =>
       !(s.kind == StmtKind.funcDef) || (s.cell == 12 || s.cell == 14)) = true)
  ∧ ((notebookStatements.all fun s =>
       s.kind == StmtKind.libCall || s.kind == StmtKind.printStmt ||
       s.kind == StmtKind.importStmt || s.kind == StmtKind.assignConst ||
       s.kind == StmtKind.shellCommand || s.kind == StmtKind.funcDef) = true)
  ∧ fSymbol ["A"] ≠ fSymbol ["A", "A"] := by
  decide

/-- C6: the notebook catches no exception, so under any failure behaviour
of the library calls the run aborts at the first failing statement,
keeping exactly the effects (files written, networks uploaded) of the
statements already completed. -/
theorem C6_no_error_handling (fails : Stmt → Bool) (i : Nat)
    (hi : i < notebookStatements.length)
    (hbefore : ∀ j, (hj : j < notebookStatements.length) → j < i →
      fails (notebookStatements.get ⟨j, hj⟩) = false)
    (hfail : fails (notebookStatements.get ⟨i, hi⟩) = true) :
    (∀ s ∈ notebookStatements, s.catchesException = false)
  ∧ runFrom notebookStatements fails
      = (((notebookStatements.take i).map effectsOf).flatten, false) :=
  ⟨by decide, runFrom_abort notebookStatements fails i hi (by decide) hbefore hfail⟩

/-- C6 (witness): with the first download (position 9, cell 3) failing,
the run aborts with no file written and no upload done. -/
theorem C6_no_error_handling_witness :
    (9 < notebookStatements.length)
  ∧ ((∀ s ∈ notebookStatements, s.catchesException = false)
      ∧ runFrom notebookStatements failFirstDownload
          = (((notebookStatements.take 9).map effectsOf).flatten, false)) :=
  ⟨by decide,
    C6_no_error_handling failFirstDownload 9 (by decide) (by decide) (by decide)⟩

/-- C7 (counterexample): the notebook is not entirely free of
process-spawning statements — the cell-8 shell escape `pip install mygene`
runs pip in a subprocess, and the cell-6 `collapse_ontology` call runs the
external collapseRedundantNodes binary in a subprocess, as its recorded
output shows. -/
theorem C7_linear_counterexample : ¬ linearNoConcurrency notebookStatements := by
  decide

/-- C7 (amended): no statement spawns a thread or an asynchronous task;
the only statements that create a process are the cell-8 pip shell escape
and the cell-6 collapse call, both synchronous; the failure-free run
executes every statement exactly once, in list order, with the cells
running top to bottom. -/
theorem C7_linear_amended :
    ((notebookStatements.all fun s => !s.spawnsThread && !s.isAsync) = true)
  ∧ ((notebookStatements.all fun s =>
       !s.spawnsProcess ||
         (s.kind == StmtKind.shellCommand || s.stage == some Stage.collapse)) = true)
  ∧ execTrace notebookStatements = notebookStatements.map Stmt.cell
  ∧ nondecreasing (notebookStatements.map Stmt.cell) = true := by
  decide

/-- Collapsing keeps only terms that were already present. -/
theorem collapse_terms_subset (o : Ontology) :
    ∀ t ∈ o.collapse_ontology.terms, t ∈ o.terms := by
  intro t ht
  exact (List.mem_filter.mp ht).1

/-- The collapse step always yields an ontology containing GO:00SUPER:
either the collapse kept it, or cell 6's guard re-adds it. -/
theorem collapseStep_root_mem (o : Ontology) :
    "GO:00SUPER" ∈ (collapseStep o).terms := by
  unfold collapseStep
  by_cases h : "GO:00SUPER" ∈ o.collapse_ontology.terms
  · simp only [if_pos h]
    exact h
  · simp only [if_neg h, Ontology.add_root]
    exact List.mem_cons_self _ _

/-- C4: when the parsed hierarchy table has three independent branch
roots, the constructed ontology contains the synthetic root GO:00SUPER
with every branch root as its child, and after the collapse step (cell 6,
with its re-adding guard) the ontology again contains GO:00SUPER. -/
theorem C4_synthetic_root (edges mapping : List (String × String)) (r1 r2 r3 : String)
    (hroots : tableRoots edges = [r1, r2, r3]) :
    "GO:00SUPER" ∈ (Ontology.from_table edges mapping "GO:00SUPER").terms
  ∧ ((r1, "GO:00SUPER") ∈ (Ontology.from_table edges mapping "GO:00SUPER").term_term
     ∧ (r2, "GO:00SUPER") ∈ (Ontology.from_table edges mapping "GO:00SUPER").term_term
     ∧ (r3, "GO:00SUPER") ∈ (Ontology.from_table edges mapping "GO:00SUPER").term_term)
  ∧ (∀ o : Ontology, "GO:00SUPER" ∈ (collapseStep o).terms) := by
  have hlen : 2 ≤ (tableRoots edges).length := by rw [hroots]; norm_num
  refine ⟨?_, ⟨?_, ?_, ?_⟩, fun o => collapseStep_root_mem o⟩
  · simp [Ontology.from_table, hlen]
  all_goals
    simp [Ontology.from_table, hlen, hroots]

/-- C4 (witness): a concrete three-branch table, with the three GO branch
roots, yields an ontology containing GO:00SUPER. -/
theorem C4_synthetic_root_witness :
    tableRoots threeBranchEdges = ["GO:0008150", "GO:0003674", "GO:0005575"]
  ∧ "GO:00SUPER" ∈
      (Ontology.from_table threeBranchEdges [("g1", "GO:0000001")] "GO:00SUPER").terms :=
  ⟨by decide,
    (C4_synthetic_root threeBranchEdges [("g1", "GO:0000001")]
      "GO:0008150" "GO:0003674" "GO:0005575" (by decide)).1⟩

/-- C5 (counterexample): for an ontology that does not already contain
GO:00SUPER, the collapse step's re-adding guard introduces a term that was
not in the original term set, so the collapsed term set is not a subset of
the original one. -/
theorem C5_collapse_subset_counterexample : ¬ collapseOnlyRemoves ontNoRoot := by
  decide

/-- C5 (amended): for every ontology that contains the synthetic root
GO:00SUPER — as the notebook's ontology does when cell 6 runs — the term
set after the collapse step (root re-added if missing) is a subset of the
original term set, and the gene set is unchanged. -/
theorem C5_collapse_subset_amended (o : Ontology)
    (hroot : "GO:00SUPER" ∈ o.terms) : collapseOnlyRemoves o := by
  by_cases h : "GO:00SUPER" ∈ o.collapse_ontology.terms
  · constructor
    · intro t ht
      simp only [collapseStep, if_pos h] at ht
      exact collapse_terms_subset o t ht
    · simp only [collapseStep, if_pos h]
      rfl
  · constructor
    · intro t ht
      simp only [collapseStep, if_neg h, Ontology.add_root] at ht
      rcases List.mem_cons.mp ht with rfl | ht2
      · exact hroot
      · exact collapse_terms_subset o t ht2
    · simp only [collapseStep, if_neg h]
      rfl

/-- C5 (witness): on a concrete ontology containing GO:00SUPER the
collapse step leaves the gene set unchanged. -/
theorem C5_collapse_subset_witness :
    "GO:00SUPER" ∈ ontWithRoot.terms
  ∧ (collapseStep ontWithRoot).genes = ontWithRoot.genes :=
  ⟨by decide, (C5_collapse_subset_amended ontWithRoot (by decide)).2⟩

/-- C8: after deleting the genes that are not keys of the identifier
mapping — exactly what cells 13 and 15 compute with
`set(go_human.genes) - set(m.keys())` — every remaining gene is a key of
the mapping, so `rename` finds a new identifier for every gene. -/
theorem C8_deleted_genes_covered (o : Ontology) (m : List (String × String)) :
    ∀ g ∈ (o.delete (setDiff o.genes (mapKeys m))).genes,
      g ∈ mapKeys m ∧ (m.lookup g).isSome = true := by
  intro g hg
  have hg' : g ∈ o.genes.filter
      (fun g => !(decide (g ∈ setDiff o.genes (mapKeys m)))) := hg
  have h1 := List.mem_filter.mp hg'
  have hgenes : g ∈ o.genes := h1.1
  have hnot : g ∉ setDiff o.genes (mapKeys m) := by
    have h2 := h1.2
    simp only [Bool.not_eq_true', decide_eq_false_iff_not] at h2
    exact h2
  have hkey : g ∈ mapKeys m := by
    by_contra hk
    exact hnot (List.mem_filter.mpr ⟨hgenes, by simpa using hk⟩)
  refine ⟨hkey, ?_⟩
  rw [List.lookup_isSome_iff]
  rcases List.mem_map.mp hkey with ⟨p, hp, rfl⟩
  exact ⟨p, hp, by simp⟩

/-- C8 (witness): in a concrete ontology with genes A and B and a mapping
covering only A, the gene A survives the delete and has a mapped value. -/
theorem C8_deleted_genes_covered_witness :
    "A" ∈ (ontForDelete.delete (setDiff ontForDelete.genes (mapKeys symbolMap))).genes
  ∧ ("A" ∈ mapKeys symbolMap ∧ (symbolMap.lookup "A").isSome = true) :=
  ⟨by decide, C8_deleted_genes_covered ontForDelete symbolMap "A" (by decide)⟩

/-- Deleting a set of genes and renaming through a mapping leaves the
terms, the term-term relations and the node attributes unchanged, provided
terms are disjoint from genes and the relations and attributes only touch
terms on their term side. -/
theorem translateVariant_frame (o : Ontology) (m : List (String × String))
    (hdisj : ∀ t ∈ o.terms, t ∉ o.genes)
    (htt : ∀ p ∈ o.term_term, p.fst ∈ o.terms ∧ p.snd ∈ o.terms)
    (hna : ∀ a ∈ o.node_attr, a.fst ∈ o.terms) :
    (translateVariant o m).terms = o.terms
  ∧ (translateVariant o m).term_term = o.term_term
  ∧ (translateVariant o m).node_attr = o.node_attr := by
  have hsub : ∀ x ∈ setDiff o.genes (mapKeys m), x ∈ o.genes :=
    fun x hx => (List.mem_filter.mp hx).1
  refine ⟨?_, ?_, ?_⟩
  · show (o.terms.filter
      (fun t => !(decide (t ∈ setDiff o.genes (mapKeys m))))) = o.terms
    rw [List.filter_eq_self]
    intro t ht
    simp only [Bool.not_eq_true', decide_eq_false_iff_not]
    exact fun hmem => hdisj t ht (hsub t hmem)
  · show (o.term_term.filter
      (fun p => !(decide (p.fst ∈ setDiff o.genes (mapKeys m)))
        && !(decide (p.snd ∈ setDiff o.genes (mapKeys m))))) = o.term_term
    rw [List.filter_eq_self]
    intro p hp
    simp only [Bool.and_eq_true, Bool.not_eq_true', decide_eq_false_iff_not]
    exact ⟨fun hmem => hdisj _ (htt p hp).1 (hsub _ hmem),
      fun hmem => hdisj _ (htt p hp).2 (hsub _ hmem)⟩
  · show (o.node_attr.filter
      (fun a => !(decide (a.fst ∈ setDiff o.genes (mapKeys m))))) = o.node_attr
    rw [List.filter_eq_self]
    intro a ha
    simp only [Bool.not_eq_true', decide_eq_false_iff_not]
    exact fun hmem => hdisj _ (hna a ha) (hsub _ hmem)

/-- C10: deleting unmapped genes and renaming the rest only changes the
gene side — the UniProt variant (a copy) and the Symbol and Entrez
variants (delete followed by rename) all carry the very same term set,
term-term relations and node attributes as the collapsed, annotated
ontology they are built from. -/
theorem C10_three_variants_frame (o : Ontology) (m1 m2 : List (String × String))
    (hdisj : ∀ t ∈ o.terms, t ∉ o.genes)
    (htt : ∀ p ∈ o.term_term, p.fst ∈ o.terms ∧ p.snd ∈ o.terms)
    (hna : ∀ a ∈ o.node_attr, a.fst ∈ o.terms) :
    (o.copy.terms = o.terms ∧ o.copy.term_term = o.term_term
      ∧ o.copy.node_attr = o.node_attr)
  ∧ ((translateVariant o m1).terms = o.terms
      ∧ (translateVariant o m1).term_term = o.term_term
      ∧ (translateVariant o m1).node_attr = o.node_attr)
  ∧ ((translateVariant o m2).terms = o.terms
      ∧ (translateVariant o m2).term_term = o.term_term
      ∧ (translateVariant o m2).node_attr = o.node_attr) :=
  ⟨⟨rfl, rfl, rfl⟩, translateVariant_frame o m1 hdisj htt hna,
    translateVariant_frame o m2 hdisj htt hna⟩

/-- C10 (witness): on a concrete annotated ontology, the Symbol variant
built with a partial mapping keeps the node attributes unchanged. -/
theorem C10_three_variants_frame_witness :
    (∀ t ∈ ontAttr.terms, t ∉ ontAttr.genes)
  ∧ (translateVariant ontAttr mapToSymbol).node_attr = ontAttr.node_attr :=
  ⟨by decide,
    ((C10_three_variants_frame ontAttr mapToSymbol mapToEntrez
      (by decide) (by decide) (by decide)).2.1).2.2⟩

/-- Every decimal digit character is a digit between 0 and 9 and is not a
dot. -/
theorem digitChar_digit : ∀ d, d < 10 →
    Nat.digitChar d ≠ '.' ∧ ('0' ≤ Nat.digitChar d ∧ Nat.digitChar d ≤ '9') := by
  decide

/-- Every character `Nat.toDigitsCore` emits over base 10, starting from a
list of decimal digit characters, is a decimal digit character. -/
theorem toDigitsCore_chars (fuel : Nat) :
    ∀ (n : Nat) (ds : List Char),
      (∀ c ∈ ds, ∃ d, d < 10 ∧ c = Nat.digitChar d) →
      ∀ c ∈ Nat.toDigitsCore 10 fuel n ds, ∃ d, d < 10 ∧ c = Nat.digitChar d := by
  induction fuel with
  | zero =>
    intro n ds hds c hc
    exact hds c hc
  | succ fuel ih =>
    intro n ds hds c hc
    simp only [Nat.toDigitsCore] at hc
    have hcons : ∀ c ∈ Nat.digitChar (n % 10) :: ds, ∃ d, d < 10 ∧ c = Nat.digitChar d := by
      intro c hc'
      rcases List.mem_cons.mp hc' with rfl | h1
      · exact ⟨n % 10, Nat.mod_lt _ (by norm_num), rfl⟩
      · exact hds c h1
    by_cases h : n / 10 = 0
    · rw [if_pos h] at hc
      exact hcons c hc
    · rw [if_neg h] at hc
      exact ih (n / 10) (Nat.digitChar (n % 10) :: ds) hcons c hc

/-- Every character of the decimal string of a natural number is a decimal
digit character. -/
theorem natDecimalString_chars (n : Nat) :
    ∀ c ∈ (natDecimalString n).data, ∃ d, d < 10 ∧ c = Nat.digitChar d := by
  intro c hc
  have hc' : c ∈ Nat.toDigits 10 n := hc
  exact toDigitsCore_chars (n + 1) n [] (by simp) c hc'

/-- Every character of the decimal string of an integer is a minus sign or
a decimal digit, and in particular no character is a dot: the string has
no fractional part. -/
theorem intDecimalString_chars (m : Int) :
    ∀ c ∈ (intDecimalString m).data,
      c ≠ '.' ∧ (c = '-' ∨ ('0' ≤ c ∧ c ≤ '9')) := by
  intro c hc
  by_cases h : m < 0
  · have hc' : c ∈ '-' :: Nat.toDigits 10 m.natAbs := by
      simpa [intDecimalString, h] using hc
    rcases List.mem_cons.mp hc' with rfl | h1
    · exact ⟨by decide, Or.inl rfl⟩
    · rcases natDecimalString_chars m.natAbs c h1 with ⟨d, hd, rfl⟩
      exact ⟨(digitChar_digit d hd).1, Or.inr (digitChar_digit d hd).2⟩
  · have hc' : c ∈ (natDecimalString m.natAbs).data := by
      simpa [intDecimalString, h] using hc
    rcases natDecimalString_chars m.natAbs c hc' with ⟨d, hd, rfl⟩
    exact ⟨(digitChar_digit d hd).1, Or.inr (digitChar_digit d hd).2⟩

/-- The values a result of the Entrez helper carries are exactly the
converted values of the group. -/
theorem sumVals_fEntrez (qs : List ℚ) :
    sumVals (fEntrez qs) = qs.map entrez_value := by
  rcases qs with _ | ⟨a, _ | ⟨b, t⟩⟩ <;> rfl

/-- C9: on every non-empty group of mygene hits, the helper `f` returns
the single mapped value when the group has one row and the list of all
mapped values otherwise; in the Entrez variant each value is the decimal
string of the truncated integer, so every resulting Entrez identifier is
an integer-valued string (optional minus sign, then digits) with no dot,
hence no fractional part. -/
theorem C9_helper_f (xs : List String) (qs : List ℚ)
    (hx : xs ≠ []) (hq : qs ≠ []) :
    (∀ v, xs = [v] → fSymbol xs = Sum.inl v)
  ∧ (xs.length ≠ 1 → fSymbol xs = Sum.inr xs)
  ∧ (∀ q, qs = [q] → fEntrez qs = Sum.inl (intDecimalString (astype_int q)))
  ∧ (qs.length ≠ 1 → fEntrez qs = Sum.inr (qs.map entrez_value))
  ∧ (∀ s ∈ sumVals (fEntrez qs),
      s ∈ qs.map entrez_value
      ∧ (∀ c ∈ s.data, c ≠ '.' ∧ (c = '-' ∨ ('0' ≤ c ∧ c ≤ '9')))
      ∧ ∃ m : Int, s = intDecimalString m) := by
  refine ⟨?_, ?_, ?_, ?_, ?_⟩
  · intro v hv
    subst hv
    rfl
  · intro hlen
    rcases xs with _ | ⟨a, _ | ⟨b, t⟩⟩
    · exact absurd rfl hx
    · exact absurd rfl hlen
    · rfl
  · intro q hqv
    subst hqv
    rfl
  · intro hlen
    rcases qs with _ | ⟨a, _ | ⟨b, t⟩⟩
    · exact absurd rfl hq
    · exact absurd rfl hlen
    · rfl
  · intro s hs
    rw [sumVals_fEntrez] at hs
    rcases List.mem_map.mp hs with ⟨q, hqmem, rfl⟩
    refine ⟨List.mem_map.mpr ⟨q, hqmem, rfl⟩, ?_, ⟨astype_int q, rfl⟩⟩
    exact intDecimalString_chars (astype_int q)

/-- C9 (witness): a singleton symbol group returns its one value, and a
singleton rational group is well-formed input for the Entrez helper. -/
theorem C9_helper_f_witness :
    (["P31946"] ≠ ([] : List String)) ∧ (([(3 : ℚ)] : List ℚ) ≠ [])
  ∧ fSymbol ["P31946"] = Sum.inl "P31946" :=
  ⟨by decide, by decide,
    (C9_helper_f ["P31946"] [(3 : ℚ)] (by decide) (by decide)).1 "P31946" rfl⟩

end DdotNotebook
